import Mathlib

/-!
Shallow embedding of the AskTheEU.org client (`asktheeu_client.py`).

HTML pages are embedded as structures whose fields hold the results of the
exact xpath queries the Python code performs; the network is an explicit
environment supplying the responses the `requests` session would return.
The outcome of `etree.HTML(text)` (which raises on unparseable input) is an
`Except String` value supplied by the environment; Python exceptions that a
function lets escape are modelled by the function returning `Except.error`.
Python dict results are modelled by the `PyDict` association-list type.
-/

/-- Does `hay` start with `needle` (on character lists)? -/
def chStarts : List Char → List Char → Bool
  | [], _ => true
  | _ :: _, [] => false
  | n :: ns, h :: hs => n == h && chStarts ns hs

/-- Substring occurrence on character lists. -/
def chContains (needle : List Char) : List Char → Bool
  | [] => needle.isEmpty
  | h :: hs => chStarts needle (h :: hs) || chContains needle hs

/-- Python `needle in hay` substring test. -/
def pyIn (needle hay : String) : Bool :=
  chContains needle.data hay.data

/-- Fuelled worker for Python `str.split` with a non-empty separator:
left-to-right scan consuming non-overlapping separator occurrences. -/
def chSplitAux (sep : List Char) : Nat → List Char → List Char → List (List Char)
  | _, acc, [] => [acc.reverse]
  | 0, acc, rest => [acc.reverse ++ rest]
  | Nat.succ fuel, acc, h :: hs =>
    if chStarts sep (h :: hs) then
      acc.reverse :: chSplitAux sep fuel [] (List.drop sep.length (h :: hs))
    else
      chSplitAux sep fuel (h :: acc) hs

/-- Python `s.split(sep)` for a non-empty separator (empty separator never
occurs in this code base). -/
def pySplit (s sep : String) : List String :=
  if sep.data.isEmpty then [s]
  else (chSplitAux sep.data s.data.length [] s.data).map (fun cs => String.mk cs)

/-- Python `s.startswith(p)`. -/
def pyStartsWith (s p : String) : Bool :=
  chStarts p.data s.data

/-- Python `s.strip()`. -/
def pyStrip (s : String) : String :=
  String.mk (((s.data.dropWhile Char.isWhitespace).reverse.dropWhile Char.isWhitespace).reverse)

/-- Python `s.lower()`. -/
def pyLower (s : String) : String :=
  String.mk (s.data.map Char.toLower)

/-- Python truthiness of a string (`""` is falsy). -/
def pyStrTruthy (s : String) : Bool :=
  !s.data.isEmpty

/-- Python `a or b` on lists (xpath results): first operand if non-empty. -/
def pyOrL {α : Type} (a b : List α) : List α :=
  if a.isEmpty then b else a

/-- Python truthiness of an optional string (`None` and `""` are falsy). -/
def optTruthy : Option String → Bool
  | some s => pyStrTruthy s
  | Option.none => false

/-- Python `a or b` where `a` is an optional string (argument) and `b` the
environment lookup: empty strings and `None` fall through. -/
def pyOrOpt (a b : Option String) : Option String :=
  match a with
  | some s => if pyStrTruthy s then some s else b
  | Option.none => b

/-- Python `s.isdigit()` restricted to ASCII digits: non-empty and all digits. -/
def isPyDigits (s : String) : Bool :=
  !s.data.isEmpty && s.data.all Char.isDigit

/-- The loop in `_try_pro_interface`: first link whose trailing `/`-segment is
numeric, returning that segment. -/
def firstNumericTail (links : List String) : Option String :=
  links.findSome? fun link =>
    let parts := pySplit link "/"
    let did := parts.getLastD ""
    if isPyDigits did then some did else Option.none

/-- Values appearing in the Python result dictionaries. -/
inductive PyVal where
  | str : String → PyVal
  | bool : Bool → PyVal
  | int : Int → PyVal
  | none : PyVal
  | list : List PyVal → PyVal
  | dict : List (String × PyVal) → PyVal

/-- A Python dict with string keys, in insertion order. -/
abbrev PyDict := List (String × PyVal)

/-- Dict lookup (`d.get(k)` / `d[k]`). -/
def dget (d : PyDict) (k : String) : Option PyVal :=
  (d.find? (fun p => p.fst == k)).map (fun p => p.snd)

/-- Truthiness of `d.get(k)` when the value is a bool (missing key is falsy). -/
def getBoolD (d : PyDict) (k : String) : Bool :=
  match dget d k with
  | some (PyVal.bool b) => b
  | _ => false

/-- `d.get(k, dflt)` when the value is a string. -/
def getStrD (d : PyDict) (k dflt : String) : String :=
  match dget d k with
  | some (PyVal.str s) => s
  | _ => dflt

/-- `{"success": False, "error": e}`. -/
def errDict (e : String) : PyDict :=
  [("success", PyVal.bool false), ("error", PyVal.str e)]

/-- `{"success": False, "error": "Not authenticated"}`. -/
def notAuthDict : PyDict :=
  [("success", PyVal.bool false), ("error", PyVal.str "Not authenticated")]

/-- The `success` field, when present and boolean. -/
def successTag (d : PyDict) : Option Bool :=
  match dget d "success" with
  | some (PyVal.bool b) => some b
  | _ => Option.none

/-- The value is a string. -/
def isStrVal : Option PyVal → Bool
  | some (PyVal.str _) => true
  | _ => false

/-- The value is a string or Python `None`. -/
def isStrOrNone : Option PyVal → Bool
  | some (PyVal.str _) => true
  | some PyVal.none => true
  | _ => false

/-- Client state: `__init__` fields.  The `requests.Session` cookie jar is
`cookies`; `authenticated` is `self._authenticated`. -/
structure AskTheEUClient where
  domain : String
  email : String
  password : String
  authenticated : Bool
  cookies : List (String × String)

/-- `AskTheEUClient.__init__`: resolves each credential from the explicit
argument else the environment variable (Python `or`), raises `ValueError`
(modelled as `Except.error`) when the resolved email or password is falsy,
else yields a client with a fresh session and `_authenticated = False`. -/
def AskTheEUClient.init (email password envEmail envPassword : Option String)
    (domain : String) : Except String AskTheEUClient :=
  let e := pyOrOpt email envEmail
  let p := pyOrOpt password envPassword
  if !optTruthy e || !optTruthy p then
    Except.error "Email and password must be provided or set in environment variables"
  else
    Except.ok { domain := domain, email := e.getD "", password := p.getD "",
                authenticated := false, cookies := [] }

/-- A network request issued through the session. -/
inductive Request where
  | get : String → Request
  | post : String → List (String × String) → Request

/-- Results of the two xpath queries `login` runs on the sign-in page:
`//input[@id="signin_token"]/@value` and `//input[@name="authenticity_token"]/@value`. -/
structure SigninPage where
  signin_token : List String
  authenticity_token : List String

/-- Response to `GET /profile/sign_in`; `page` is the outcome of
`etree.HTML(r.text)` followed by the two token queries. -/
structure LoginGetResp where
  status_code : Nat
  page : Except String SigninPage

/-- Response to the login form POST. -/
structure LoginPostResp where
  status_code : Nat
  text : String
  url : String

/-- Environment for `login`: the sign-in page and the POST response as a
function of the submitted form data. -/
structure LoginEnv where
  signin_get : LoginGetResp
  signin_post : List (String × String) → LoginPostResp

def signin_url (c : AskTheEUClient) : String :=
  c.domain ++ "/profile/sign_in"

/-- The `login_data` dict submitted by `login` (fields in source order). -/
def login_form_data (c : AskTheEUClient) (tok : String) : List (String × String) :=
  [("authenticity_token", ""),
   ("user_signin[email]", c.email),
   ("user_signin[password]", c.password),
   ("token", tok),
   ("modal", ""),
   ("commit", "Sign in")]

/-- The `success_indicators` disjunction in `login`. -/
def login_success_heuristic (c : AskTheEUClient) (r : LoginPostResp) : Bool :=
  pyIn "Sign out" r.text || pyIn "sign_out" r.text || pyIn "Your profile" r.text ||
  pyIn "alaveteli_pro/dashboard" r.text || pyIn "logout" (pyLower r.text) ||
  r.url != signin_url c

/-- `AskTheEUClient.login`.  Returns the boolean result, the updated client and
the trace of network requests issued; `Except.error` models an uncaught
exception from `etree.HTML`. -/
def AskTheEUClient.login (c : AskTheEUClient) (env : LoginEnv) :
    Except String (Bool × AskTheEUClient × List Request) :=
  if c.authenticated then Except.ok (true, c, [])
  else
    match env.signin_get.page with
    | Except.error e => Except.error e
    | Except.ok pg =>
      let tok := pg.signin_token
      let tok := if tok.isEmpty then pg.authenticity_token else tok
      match tok with
      | [] => Except.ok (false, c, [Request.get (signin_url c)])
      | t :: _ =>
        let d := login_form_data c t
        let r := env.signin_post d
        let auth := login_success_heuristic c r
        Except.ok (auth, { c with authenticated := auth },
                   [Request.get (signin_url c), Request.post (signin_url c) d])

/-- Results of the xpath queries `_try_pro_interface` runs on the new-request
page: `//title/text()`, `//input[@name="authenticity_token"]/@value`,
`//meta[@name="csrf-token"]/@content`, `//input[contains(@name, "token")]/@value`. -/
structure ProNewPage where
  title_text : List String
  authenticity_token : List String
  csrf_meta : List String
  token_inputs : List String

/-- Result of the draft-links query on the Pro draft-POST response:
`//a[contains(@href, "/en/alaveteli_pro/info_requests/")]/@href`. -/
structure ProDraftPage where
  draft_links : List String

/-- Response to the Pro draft-creation POST. -/
structure ProPostResp where
  status_code : Nat
  page : Except String ProDraftPage

/-- Environment for `_try_pro_interface`. -/
structure ProEnv where
  new_status : Nat
  new_page : Except String ProNewPage
  draft_post : List (String × String) → ProPostResp

/-- The form data POSTed by `_try_pro_interface` (fields in source order). -/
def pro_form_data (tok pbid title body embargo : String) : List (String × String) :=
  [("utf8", "✓"),
   ("authenticity_token", tok),
   ("info_request[public_body_id]", pbid),
   ("info_request[title]", title),
   ("outgoing_message[body]", body),
   ("embargo[embargo_duration]", embargo),
   ("preview", "true")]

/-- Token extraction in `_try_pro_interface`: the named input, else the
csrf meta tag `or` any input whose name contains "token". -/
def pro_token (pg : ProNewPage) : List String :=
  let t := pg.authenticity_token
  if t.isEmpty then pyOrL pg.csrf_meta pg.token_inputs else t

/-- The "page title indicates no access" check in `_try_pro_interface`. -/
def pro_no_access (pg : ProNewPage) : Bool :=
  !pg.title_text.isEmpty && pyIn "not found" (pyLower (pg.title_text.headD ""))

/-- `AskTheEUClient._try_pro_interface`.  Total: the whole body is wrapped in
`try/except`, so every parse exception is converted to a failure dict. -/
def AskTheEUClient.try_pro_interface (c : AskTheEUClient) (env : ProEnv)
    (pbid title body embargo : String) : PyDict :=
  if env.new_status ≠ 200 then
    errDict ("Failed to access Pro interface page: " ++ toString env.new_status)
  else
    match env.new_page with
    | Except.error e => errDict ("Pro interface error: " ++ e)
    | Except.ok pg =>
      if pro_no_access pg then errDict "No access to Pro interface"
      else
        match pro_token pg with
        | [] => errDict "Could not find authenticity token in Pro interface"
        | tok :: _ =>
          let r := env.draft_post (pro_form_data tok pbid title body embargo)
          if r.status_code = 200 then
            match r.page with
            | Except.error e => errDict ("Error parsing Pro response: " ++ e)
            | Except.ok dp =>
              match firstNumericTail dp.draft_links with
              | some did =>
                [("success", PyVal.bool true),
                 ("method", PyVal.str "pro_interface"),
                 ("draft_id", PyVal.str did),
                 ("draft_url",
                  PyVal.str (c.domain ++ "/en/alaveteli_pro/info_requests/" ++ did))]
              | Option.none =>
                errDict ("Failed to create Pro draft request. Status code: "
                         ++ toString r.status_code)
          else
            errDict ("Failed to create Pro draft request. Status code: "
                     ++ toString r.status_code)

/-- Token queries on the standard new-request page (same three selectors as
the Pro page, which has no title check here). -/
structure StdNewPage where
  authenticity_token : List String
  csrf_meta : List String
  token_inputs : List String

/-- Response to a standard-interface GET of `/new?body=…` or `/new`. -/
structure StdGetResp where
  status_code : Nat
  page : Except String StdNewPage

/-- Result of `//form[@id="preview_form"]/@action` on the standard POST response. -/
structure StdPostPage where
  preview_form_action : List String

/-- Response to the standard draft-creation POST (`r.url` is the final URL
after redirects). -/
structure StdPostResp where
  status_code : Nat
  url : String
  page : Except String StdPostPage

/-- Environment for `_try_standard_interface`. -/
structure StdEnv where
  new_with_body : StdGetResp
  new_plain : StdGetResp
  draft_post : List (String × String) → StdPostResp

/-- The form data POSTed by `_try_standard_interface` (fields in source order). -/
def std_form_data (tok pbid title body : String) : List (String × String) :=
  [("authenticity_token", tok),
   ("info_request[title]", title),
   ("outgoing_message[body]", body),
   ("info_request[public_body_id]", pbid),
   ("submitted_new_request", "1"),
   ("preview", "1"),
   ("commit", "Preview")]

/-- Token extraction in `_try_standard_interface` (same chain as the Pro path). -/
def std_token (pg : StdNewPage) : List String :=
  let t := pg.authenticity_token
  if t.isEmpty then pyOrL pg.csrf_meta pg.token_inputs else t

/-- A standard-interface success dict for draft id `did`. -/
def std_success (c : AskTheEUClient) (did : String) : PyDict :=
  [("success", PyVal.bool true),
   ("method", PyVal.str "standard_interface"),
   ("draft_id", PyVal.str did),
   ("draft_url", PyVal.str (c.domain ++ "/preview/" ++ did))]

/-- `AskTheEUClient._try_standard_interface`.  Total: fully wrapped in
`try/except`; the inner draft-id parse failure falls through to the generic
failure dict (`except … pass` region ends before the final return). -/
def AskTheEUClient.try_standard_interface (c : AskTheEUClient) (env : StdEnv)
    (pbid title body : String) : PyDict :=
  let r := if env.new_with_body.status_code ≠ 200 then env.new_plain else env.new_with_body
  if r.status_code ≠ 200 then
    errDict ("Failed to access standard interface page: " ++ toString r.status_code)
  else
    match r.page with
    | Except.error e => errDict ("Standard interface error: " ++ e)
    | Except.ok pg =>
      match std_token pg with
      | [] => errDict "Could not find authenticity token in standard interface"
      | tok :: _ =>
        let rp := env.draft_post (std_form_data tok pbid title body)
        if rp.status_code == 200 || rp.status_code == 302 then
          let draft_id : Option String :=
            if pyIn "/preview/" rp.url then
              some ((pySplit ((pySplit rp.url "/preview/").getLastD "") "?").headD "")
            else Option.none
          if optTruthy draft_id then std_success c (draft_id.getD "")
          else
            match rp.page with
            | Except.error _ =>
              errDict ("Failed to create standard draft request. Status code: "
                       ++ toString rp.status_code)
            | Except.ok pp =>
              match pp.preview_form_action with
              | [] =>
                errDict ("Failed to create standard draft request. Status code: "
                         ++ toString rp.status_code)
              | act :: _ =>
                if pyIn "/preview/" act then
                  std_success c ((pySplit act "/preview/").getLastD "")
                else
                  errDict ("Failed to create standard draft request. Status code: "
                           ++ toString rp.status_code)
        else
          errDict ("Failed to create standard draft request. Status code: "
                   ++ toString rp.status_code)

/-- `if not self._authenticated and not self.login(): …` prelude shared by the
public methods: yields the (possibly mutated) client and whether to proceed. -/
def AskTheEUClient.ensure_auth (c : AskTheEUClient) (lenv : LoginEnv) :
    Except String (AskTheEUClient × Bool) :=
  if c.authenticated then Except.ok (c, true)
  else
    match c.login lenv with
    | Except.error e => Except.error e
    | Except.ok (b, c', _) => Except.ok (c', b)

/-- `AskTheEUClient.create_draft_request`.  The third component of the result
records whether the standard (fallback) interface was attempted. -/
def AskTheEUClient.create_draft_request (c : AskTheEUClient) (lenv : LoginEnv)
    (penv : ProEnv) (senv : StdEnv) (pbid title body embargo : String) :
    Except String (PyDict × AskTheEUClient × Bool) :=
  match c.ensure_auth lenv with
  | Except.error e => Except.error e
  | Except.ok (c1, ok) =>
    if !ok then Except.ok (notAuthDict, c1, false)
    else
      let pro := c1.try_pro_interface penv pbid title body embargo
      if getBoolD pro "success" then Except.ok (pro, c1, false)
      else
        let e := getStrD pro "error" ""
        if pyIn "token" e || pyIn "page" e then
          let std := c1.try_standard_interface senv pbid title body
          if getBoolD std "success" then Except.ok (std, c1, true)
          else Except.ok (pro, c1, true)
        else Except.ok (pro, c1, false)

/-- Response to the GET of the draft/preview page in the send paths; `tokens`
is the outcome of `etree.HTML(r.text)` followed by
`//input[@name="authenticity_token"]/@value`. -/
structure SendGetResp where
  status_code : Nat
  tokens : Except String (List String)

/-- Response to the Pro send POST; `location` is `r.headers.get("Location")`. -/
structure SendProPostResp where
  status_code : Nat
  location : Option String

/-- Environment for `_send_pro_request`. -/
structure SendProEnv where
  draft_get : SendGetResp
  send_post : List (String × String) → SendProPostResp

/-- The form data POSTed by `_send_pro_request`. -/
def send_pro_form_data (tok : String) : List (String × String) :=
  [("utf8", "✓"), ("authenticity_token", tok), ("commit", "Send request")]

/-- Python `x.split(sep)[-1].split("/")[0]`, the id-extraction idiom used for
`/request/` and `/preview/` markers. -/
def segAfter (marker s : String) : String :=
  (pySplit ((pySplit s marker).getLastD "") "/").headD ""

/-- `AskTheEUClient._send_pro_request`.  The draft-page parse is not wrapped in
`try/except`, so its exception escapes (`Except.error`). -/
def AskTheEUClient.send_pro_request (c : AskTheEUClient) (env : SendProEnv)
    (draft_id : String) : Except String PyDict :=
  if env.draft_get.status_code ≠ 200 then
    Except.ok (errDict ("Failed to access Pro draft request: "
                        ++ toString env.draft_get.status_code))
  else
    match env.draft_get.tokens with
    | Except.error e => Except.error e
    | Except.ok toks =>
      match toks with
      | [] => Except.ok (errDict "Could not find authenticity token")
      | tok :: _ =>
        let r := env.send_post (send_pro_form_data tok)
        if r.status_code == 200 || r.status_code == 302 then
          let request_id : Option String :=
            match r.location with
            | some loc =>
              if pyIn "/request/" loc then some (segAfter "/request/" loc)
              else Option.none
            | Option.none => Option.none
          Except.ok
            [("success", PyVal.bool true),
             ("request_id",
              match request_id with
              | some s => PyVal.str s
              | Option.none => PyVal.none),
             ("request_url",
              if optTruthy request_id then
                PyVal.str (c.domain ++ "/en/request/" ++ request_id.getD "")
              else PyVal.none)]
        else
          Except.ok (errDict ("Failed to send Pro request. Status code: "
                              ++ toString r.status_code))

/-- Response to the standard send POST; `request_links` is the (wrapped)
outcome of parsing `r.text` and `//a[contains(@href, "/request/")]/@href`. -/
structure SendStdPostResp where
  status_code : Nat
  url : String
  request_links : Except String (List String)

/-- Environment for `_send_standard_request`. -/
structure SendStdEnv where
  preview_get : SendGetResp
  send_post : List (String × String) → SendStdPostResp

/-- `AskTheEUClient._send_standard_request`.  The preview-page parse is not
wrapped (exception escapes); the response-links parse is wrapped
(`except … pass`, id stays as derived from the URL). -/
def AskTheEUClient.send_standard_request (c : AskTheEUClient) (env : SendStdEnv)
    (draft_id : String) : Except String PyDict :=
  if env.preview_get.status_code ≠ 200 then
    Except.ok (errDict ("Failed to access standard preview: "
                        ++ toString env.preview_get.status_code))
  else
    match env.preview_get.tokens with
    | Except.error e => Except.error e
    | Except.ok toks =>
      match toks with
      | [] => Except.ok (errDict "Could not find authenticity token in preview")
      | tok :: _ =>
        let r := env.send_post [("authenticity_token", tok), ("submit", "1")]
        if r.status_code == 200 || r.status_code == 302 then
          let rid0 : Option String :=
            if pyIn "/request/" r.url then some (segAfter "/request/" r.url)
            else Option.none
          let request_id : Option String :=
            if optTruthy rid0 then rid0
            else
              match r.request_links with
              | Except.error _ => rid0
              | Except.ok links =>
                match links.find? (fun l => pyIn "/request/" l) with
                | some l => some (segAfter "/request/" l)
                | Option.none => rid0
          Except.ok
            [("success", PyVal.bool true),
             ("request_id",
              match request_id with
              | some s => PyVal.str s
              | Option.none => PyVal.none),
             ("request_url",
              if optTruthy request_id then
                PyVal.str (c.domain ++ "/request/" ++ request_id.getD "")
              else PyVal.none)]
        else
          Except.ok (errDict ("Failed to send standard request. Status code: "
                              ++ toString r.status_code))

/-- `AskTheEUClient.send_request`: authentication prelude, then dispatch on
`is_pro`. -/
def AskTheEUClient.send_request (c : AskTheEUClient) (lenv : LoginEnv)
    (penv : SendProEnv) (senv : SendStdEnv) (draft_id : String) (is_pro : Bool) :
    Except String (PyDict × AskTheEUClient) :=
  match c.ensure_auth lenv with
  | Except.error e => Except.error e
  | Except.ok (c1, ok) =>
    if !ok then Except.ok (notAuthDict, c1)
    else if is_pro then
      match c1.send_pro_request penv draft_id with
      | Except.error e => Except.error e
      | Except.ok d => Except.ok (d, c1)
    else
      match c1.send_standard_request senv draft_id with
      | Except.error e => Except.error e
      | Except.ok d => Except.ok (d, c1)

/-- An HTML element as used by the listing scraper: its `.text` and its
`href` attribute (`None` when absent). -/
structure Elem where
  text : Option String
  href : Option String

/-- One request item block, holding the results of every per-item xpath
query `list_requests` runs, in source order. -/
structure ListItem where
  a_title_pro : List Elem
  a_title_std : List Elem
  a_title_std2 : List Elem
  a_h3 : List Elem
  a_h4 : List Elem
  a_any : List Elem
  status_span : List Elem
  status_div : List Elem
  status_p : List Elem
  time_el : List Elem
  date_span : List Elem
  date_div : List Elem

/-- A listing page: item blocks (the first non-empty of the three container
queries) and the `//a[@rel="next"]/@href`, `//a[@rel="prev"]/@href` results. -/
structure ListPage where
  items : List ListItem
  next_links : List String
  prev_links : List String

/-- Response to a listing-page GET. -/
structure ListGetResp where
  status_code : Nat
  page : Except String ListPage

/-- Environment for `list_requests`: the three candidate listing URLs. -/
structure ListEnv where
  pro_resp : ListGetResp
  profile_resp : ListGetResp
  user_resp : ListGetResp

/-- The six-selector fallback chain for the title link. -/
def title_chain (i : ListItem) : List Elem :=
  pyOrL i.a_title_pro (pyOrL i.a_title_std (pyOrL i.a_title_std2
    (pyOrL i.a_h3 (pyOrL i.a_h4 i.a_any))))

/-- The three-selector fallback chain for the status element. -/
def status_chain (i : ListItem) : List Elem :=
  pyOrL i.status_span (pyOrL i.status_div i.status_p)

/-- The three-selector fallback chain for the date element. -/
def date_chain (i : ListItem) : List Elem :=
  pyOrL i.time_el (pyOrL i.date_span i.date_div)

/-- Python `x if x is not None else None` dict value for an optional string. -/
def optStrVal (x : Option String) : PyVal :=
  match x with
  | some s => PyVal.str s
  | Option.none => PyVal.none

/-- The `url` field value: prepend the domain to relative URLs. -/
def urlVal (domain : String) (u : Option String) : PyVal :=
  match u with
  | some s =>
    if pyStrTruthy s && !pyStartsWith s "http" then PyVal.str (domain ++ s)
    else PyVal.str s
  | Option.none => PyVal.none

/-- `x.strip() if x else dflt` for an element text. -/
def textOrDefault (dflt : String) (x : Option String) : String :=
  match x with
  | some t => if pyStrTruthy t then pyStrip t else dflt
  | Option.none => dflt

/-- `x.strip() if x else None` for an element text. -/
def textOrNone (x : Option String) : Option String :=
  match x with
  | some t => if pyStrTruthy t then some (pyStrip t) else Option.none
  | Option.none => Option.none

/-- The per-item body of the loop in `list_requests`; `Option.none` is the
`continue` taken when no title link matches. -/
def parse_item (domain : String) (item : ListItem) : Option PyDict :=
  match (title_chain item).head? with
  | Option.none => Option.none
  | some el =>
    let title := textOrDefault "Untitled Request" el.text
    let url : Option String :=
      match el.href with
      | some u =>
        if pyStrTruthy u && !pyStartsWith u "http" then
          some (if pyStartsWith u "/" then u else "/" ++ u)
        else some u
      | Option.none => Option.none
    let request_id : Option String :=
      match url with
      | some u =>
        if pyStrTruthy u && pyIn "/request/" u then some (segAfter "/request/" u)
        else Option.none
      | Option.none => Option.none
    let status := match (status_chain item).head? with
      | some s => textOrDefault "Unknown" s.text
      | Option.none => "Unknown"
    let date : Option String := match (date_chain item).head? with
      | some dEl => textOrNone dEl.text
      | Option.none => Option.none
    some [("id", optStrVal request_id),
          ("title", PyVal.str title),
          ("url", urlVal domain url),
          ("status", PyVal.str status),
          ("date", optStrVal date)]

/-- `AskTheEUClient.list_requests`.  The top-level listing-page parse is not
wrapped in `try/except`, so its exception escapes. -/
def AskTheEUClient.list_requests (c : AskTheEUClient) (lenv : LoginEnv)
    (env : ListEnv) (page : Int) : Except String (PyDict × AskTheEUClient) :=
  match c.ensure_auth lenv with
  | Except.error e => Except.error e
  | Except.ok (c1, ok) =>
    if !ok then Except.ok (notAuthDict, c1)
    else
      let r :=
        if env.pro_resp.status_code ≠ 200 then
          if env.profile_resp.status_code ≠ 200 then env.user_resp
          else env.profile_resp
        else env.pro_resp
      if r.status_code ≠ 200 then
        Except.ok (errDict ("Failed to list requests: " ++ toString r.status_code), c1)
      else
        match r.page with
        | Except.error e => Except.error e
        | Except.ok lp =>
          let reqs := lp.items.filterMap (parse_item c1.domain)
          Except.ok
            ([("success", PyVal.bool true),
              ("requests", PyVal.list (reqs.map PyVal.dict)),
              ("pagination", PyVal.dict
                [("current_page", PyVal.int page),
                 ("next_page",
                  if !lp.next_links.isEmpty then PyVal.int (page + 1) else PyVal.none),
                 ("prev_page",
                  if !lp.prev_links.isEmpty && decide (page > 1) then PyVal.int (page - 1)
                  else PyVal.none)])],
             c1)

/-- One invocation of a public client operation together with its network
environment. -/
inductive Op where
  | opLogin : LoginEnv → Op
  | opCreate : LoginEnv → ProEnv → StdEnv → String → String → String → String → Op
  | opSend : LoginEnv → SendProEnv → SendStdEnv → String → Bool → Op
  | opList : LoginEnv → ListEnv → Int → Op

/-- The client state after running one operation (on an escaped exception the
state is whatever it was when the exception was raised; in this code every
escaping parse exception is raised before any state mutation). -/
def step (c : AskTheEUClient) : Op → AskTheEUClient
  | Op.opLogin lenv =>
    match c.login lenv with
    | Except.ok (_, c', _) => c'
    | Except.error _ => c
  | Op.opCreate lenv penv senv pbid title body embargo =>
    match c.create_draft_request lenv penv senv pbid title body embargo with
    | Except.ok (_, c', _) => c'
    | Except.error _ => c
  | Op.opSend lenv penv senv did ip =>
    match c.send_request lenv penv senv did ip with
    | Except.ok (_, c') => c'
    | Except.error _ => c
  | Op.opList lenv env page =>
    match c.list_requests lenv env page with
    | Except.ok (_, c') => c'
    | Except.error _ => c

/-- Tagged-record shape for `create_draft_request` results. -/
def taggedCreate (d : PyDict) : Bool :=
  match successTag d with
  | some true => isStrVal (dget d "draft_id") && isStrVal (dget d "draft_url")
  | some false => isStrVal (dget d "error")
  | Option.none => false

/-- Tagged-record shape for `send_request` results (identifiers may be null). -/
def taggedSend (d : PyDict) : Bool :=
  match successTag d with
  | some true => isStrOrNone (dget d "request_id") && isStrOrNone (dget d "request_url")
  | some false => isStrVal (dget d "error")
  | Option.none => false

/-- Tagged-record shape for `list_requests` results. -/
def taggedList (d : PyDict) : Bool :=
  match successTag d with
  | some true =>
    (match dget d "requests" with
     | some (PyVal.list _) => true
     | _ => false) &&
    (match dget d "pagination" with
     | some (PyVal.dict _) => true
     | _ => false)
  | some false => isStrVal (dget d "error")
  | Option.none => false

/-- Any `login` call that returns `True` leaves the client authenticated
(the return value is `self._authenticated`). -/
theorem login_true_sets_authenticated (c c' : AskTheEUClient) (env : LoginEnv)
    (tr : List Request) (h : c.login env = Except.ok (true, c', tr)) :
    c'.authenticated = true := by
  unfold AskTheEUClient.login at h
  by_cases hc : c.authenticated = true
  · simp [hc] at h
    obtain ⟨h1, -⟩ := h
    rw [← h1, hc]
  · simp [Bool.not_eq_true] at hc
    rw [hc] at h
    simp only [Bool.false_eq_true, if_false] at h
    cases hpage : env.signin_get.page with
    | error e => rw [hpage] at h; exact absurd h (by simp)
    | ok pg =>
      rw [hpage] at h
      simp only at h
      cases htok : (if pg.signin_token.isEmpty then pg.authenticity_token else pg.signin_token) with
      | nil => rw [htok] at h; simp at h
      | cons t ts =>
        rw [htok] at h
        simp only [Except.ok.injEq, Prod.mk.injEq] at h
        obtain ⟨hb, hcl, -⟩ := h
        rw [← hcl]
        simpa using hb.symm

/-- C5: on an already-authenticated client, `login` returns true immediately
with an empty request trace; hence a second `login` after a successful first
one issues zero network requests. -/
theorem login_idempotent_no_requests (c c' : AskTheEUClient) (env env' : LoginEnv)
    (tr : List Request) :
    (c.authenticated = true → c.login env = Except.ok (true, c, [])) ∧
    (c.login env = Except.ok (true, c', tr) → c'.login env' = Except.ok (true, c', [])) := by
  constructor
  · intro h
    unfold AskTheEUClient.login
    simp [h]
  · intro h
    have hauth := login_true_sets_authenticated c c' env tr h
    unfold AskTheEUClient.login
    simp [hauth]

/-- C5 witness. -/
theorem login_idempotent_no_requests_witness :
    ({ domain := "https://www.asktheeu.org", email := "e", password := "p",
       authenticated := true, cookies := [] } : AskTheEUClient).login
      { signin_get := { status_code := 200, page := Except.error "Document is empty" },
        signin_post := fun _ => { status_code := 200, text := "", url := "" } } =
      Except.ok (true,
        { domain := "https://www.asktheeu.org", email := "e", password := "p",
          authenticated := true, cookies := [] }, []) :=
  (login_idempotent_no_requests
    { domain := "https://www.asktheeu.org", email := "e", password := "p",
      authenticated := true, cookies := [] }
    { domain := "https://www.asktheeu.org", email := "e", password := "p",
      authenticated := true, cookies := [] }
    { signin_get := { status_code := 200, page := Except.error "Document is empty" },
      signin_post := fun _ => { status_code := 200, text := "", url := "" } }
    { signin_get := { status_code := 200, page := Except.error "Document is empty" },
      signin_post := fun _ => { status_code := 200, text := "", url := "" } }
    []).1 rfl

/-- C3: `login` tries the `signin_token` input first, then the
`authenticity_token` input; with no candidate it returns false having issued
only the GET; with a candidate, the POST body's `token` field is exactly the
first extracted value. -/
theorem login_token_candidates (c : AskTheEUClient) (env : LoginEnv) (pg : SigninPage)
    (hauth : c.authenticated = false)
    (hpage : env.signin_get.page = Except.ok pg) :
    (pg.signin_token = [] → pg.authenticity_token = [] →
       c.login env = Except.ok (false, c, [Request.get (signin_url c)])) ∧
    (∀ t ts, pg.signin_token = t :: ts →
       c.login env = Except.ok
         (login_success_heuristic c (env.signin_post (login_form_data c t)),
          { c with authenticated :=
              login_success_heuristic c (env.signin_post (login_form_data c t)) },
          [Request.get (signin_url c),
           Request.post (signin_url c) (login_form_data c t)]) ∧
       (login_form_data c t).lookup "token" = some t) ∧
    (∀ t ts, pg.signin_token = [] → pg.authenticity_token = t :: ts →
       c.login env = Except.ok
         (login_success_heuristic c (env.signin_post (login_form_data c t)),
          { c with authenticated :=
              login_success_heuristic c (env.signin_post (login_form_data c t)) },
          [Request.get (signin_url c),
           Request.post (signin_url c) (login_form_data c t)]) ∧
       (login_form_data c t).lookup "token" = some t) := by
  refine ⟨fun h1 h2 => ?_, fun t ts h1 => ⟨?_, ?_⟩, fun t ts h1 h2 => ⟨?_, ?_⟩⟩
  · unfold AskTheEUClient.login
    simp [hauth, hpage, h1, h2]
  · unfold AskTheEUClient.login
    simp [hauth, hpage, h1]
  · simp [login_form_data, List.lookup]
  · unfold AskTheEUClient.login
    simp [hauth, hpage, h1, h2]
  · simp [login_form_data, List.lookup]

/-- C3 witness: a sign-in page whose only token input is the
`authenticity_token` fallback; the POST carries that value. -/
theorem login_token_candidates_witness :
    ({ domain := "d", email := "e", password := "p",
       authenticated := false, cookies := [] } : AskTheEUClient).login
      { signin_get := { status_code := 200,
                        page := Except.ok { signin_token := [],
                                            authenticity_token := ["tok123"] } },
        signin_post := fun _ => { status_code := 200, text := "", url := "d/profile/sign_in" } } =
      Except.ok (false,
        { domain := "d", email := "e", password := "p",
          authenticated := false, cookies := [] },
        [Request.get "d/profile/sign_in",
         Request.post "d/profile/sign_in"
           [("authenticity_token", ""), ("user_signin[email]", "e"),
            ("user_signin[password]", "p"), ("token", "tok123"),
            ("modal", ""), ("commit", "Sign in")]]) ∧
    ([("authenticity_token", ""), ("user_signin[email]", "e"),
      ("user_signin[password]", "p"), ("token", "tok123"),
      ("modal", ""), ("commit", "Sign in")] : List (String × String)).lookup "token" =
      some "tok123" := by
  have h := ((login_token_candidates
    { domain := "d", email := "e", password := "p",
      authenticated := false, cookies := [] }
    { signin_get := { status_code := 200,
                      page := Except.ok { signin_token := [],
                                          authenticity_token := ["tok123"] } },
      signin_post := fun _ => { status_code := 200, text := "", url := "d/profile/sign_in" } }
    { signin_token := [], authenticity_token := ["tok123"] }
    rfl rfl).2.2) "tok123" [] rfl rfl
  exact ⟨h.1.trans rfl, h.2⟩

/-- C8: construction resolves each credential from the explicit argument else
the environment, fails exactly when a resolved credential is absent (falsy),
and otherwise yields a client with a fresh empty session and
`authenticated = false`. -/
theorem init_resolves_credentials (email password envEmail envPassword : Option String)
    (domain : String) :
    (optTruthy (pyOrOpt email envEmail) = false ∨
       optTruthy (pyOrOpt password envPassword) = false →
     AskTheEUClient.init email password envEmail envPassword domain =
       Except.error "Email and password must be provided or set in environment variables") ∧
    (optTruthy (pyOrOpt email envEmail) = true →
     optTruthy (pyOrOpt password envPassword) = true →
     AskTheEUClient.init email password envEmail envPassword domain =
       Except.ok { domain := domain,
                   email := (pyOrOpt email envEmail).getD "",
                   password := (pyOrOpt password envPassword).getD "",
                   authenticated := false, cookies := [] }) := by
  constructor
  · intro h
    unfold AskTheEUClient.init
    rcases h with h | h <;> simp [h]
  · intro h1 h2
    unfold AskTheEUClient.init
    simp [h1, h2]

/-- C8 witness: an explicit email, a password from the environment. -/
theorem init_resolves_credentials_witness :
    AskTheEUClient.init (some "a@b.eu") Option.none Option.none (some "pw") "d" =
      Except.ok { domain := "d", email := "a@b.eu", password := "pw",
                  authenticated := false, cookies := [] } :=
  (init_resolves_credentials (some "a@b.eu") Option.none Option.none (some "pw") "d").2
    rfl rfl

/-- Once authenticated, every public operation leaves the client state
unchanged (no operation ever clears the flag). -/
theorem step_fixes_authenticated (c : AskTheEUClient) (op : Op)
    (h : c.authenticated = true) : step c op = c := by
  cases op with
  | opLogin lenv =>
    simp [step, AskTheEUClient.login, h]
  | opCreate lenv penv senv pbid title body embargo =>
    simp only [step, AskTheEUClient.create_draft_request, AskTheEUClient.ensure_auth, h,
      if_true]
    split
    next d c' b heq =>
      repeat' split at heq
      all_goals simp_all
    next e heq => rfl
  | opSend lenv penv senv did ip =>
    simp only [step, AskTheEUClient.send_request, AskTheEUClient.ensure_auth, h, if_true]
    split
    next d c' heq =>
      repeat' split at heq
      all_goals simp_all
    next e heq => rfl
  | opList lenv env page =>
    simp only [step, AskTheEUClient.list_requests, AskTheEUClient.ensure_auth, h, if_true]
    split
    next d c' heq =>
      repeat' split at heq
      all_goals simp_all
    next e heq => rfl

/-- C9: a freshly constructed client is Unauthenticated, and over any sequence
of public operations the authenticated flag, once true, never becomes false
(the only transition is the one-way one performed by `login`). -/
theorem authenticated_one_way :
    (∀ (email password envEmail envPassword : Option String) (domain : String)
       (c : AskTheEUClient),
       AskTheEUClient.init email password envEmail envPassword domain = Except.ok c →
       c.authenticated = false) ∧
    (∀ (c : AskTheEUClient) (ops : List Op), c.authenticated = true →
       (ops.foldl step c).authenticated = true) := by
  constructor
  · intro email password envEmail envPassword domain c h
    simp only [AskTheEUClient.init] at h
    split at h
    · exact absurd h (by simp)
    · simp only [Except.ok.injEq] at h
      rw [← h]
  · intro c ops h
    induction ops generalizing c with
    | nil => exact h
    | cons op rest ih =>
      simp only [List.foldl_cons]
      rw [step_fixes_authenticated c op h]
      exact ih c h

/-- C9 witness: running a login and a listing on an authenticated client
leaves it authenticated. -/
theorem authenticated_one_way_witness :
    ([Op.opLogin
        { signin_get := { status_code := 200, page := Except.error "Document is empty" },
          signin_post := fun _ => { status_code := 200, text := "", url := "" } },
       Op.opList
        { signin_get := { status_code := 200, page := Except.error "Document is empty" },
          signin_post := fun _ => { status_code := 200, text := "", url := "" } }
        { pro_resp := { status_code := 404, page := Except.error "x" },
          profile_resp := { status_code := 404, page := Except.error "x" },
          user_resp := { status_code := 404, page := Except.error "x" } }
        1].foldl step
      { domain := "d", email := "e", password := "p",
        authenticated := true, cookies := [] }).authenticated = true :=
  authenticated_one_way.2
    { domain := "d", email := "e", password := "p", authenticated := true, cookies := [] }
    _ rfl

/-- C1: when the Pro path fails, `create_draft_request` attempts the standard
path exactly when the Pro error message contains "token" or "page" (third
component of the result), returns the standard result only when that attempt
succeeds, and otherwise returns the Pro failure unchanged. -/
theorem create_draft_fallback_trigger (c : AskTheEUClient) (lenv : LoginEnv)
    (penv : ProEnv) (senv : StdEnv) (pbid title body embargo : String) (pro : PyDict)
    (hauth : c.authenticated = true)
    (hpro : c.try_pro_interface penv pbid title body embargo = pro)
    (hfail : getBoolD pro "success" = false) :
    c.create_draft_request lenv penv senv pbid title body embargo =
      Except.ok
        ((if (pyIn "token" (getStrD pro "error" "") ||
              pyIn "page" (getStrD pro "error" "")) &&
             getBoolD (c.try_standard_interface senv pbid title body) "success" then
            c.try_standard_interface senv pbid title body
          else pro),
         c,
         (pyIn "token" (getStrD pro "error" "") ||
          pyIn "page" (getStrD pro "error" ""))) := by
  simp only [AskTheEUClient.create_draft_request, AskTheEUClient.ensure_auth, hauth,
    if_true, hpro, hfail, Bool.false_eq_true, if_false]
  cases htok : pyIn "token" (getStrD pro "error" "") <;>
    cases hpage : pyIn "page" (getStrD pro "error" "") <;>
      cases hs : getBoolD (c.try_standard_interface senv pbid title body) "success" <;>
        simp_all

/-- C1 witness: a Pro failure mentioning "page" triggers the fallback, which
also fails, so the Pro error is returned with the fallback marked attempted. -/
theorem create_draft_fallback_trigger_witness :
    ({ domain := "d", email := "e", password := "p",
       authenticated := true, cookies := [] } : AskTheEUClient).create_draft_request
      { signin_get := { status_code := 200, page := Except.error "x" },
        signin_post := fun _ => { status_code := 200, text := "", url := "" } }
      { new_status := 404, new_page := Except.error "x",
        draft_post := fun _ => { status_code := 500, page := Except.error "x" } }
      { new_with_body := { status_code := 404, page := Except.error "x" },
        new_plain := { status_code := 404, page := Except.error "x" },
        draft_post := fun _ => { status_code := 500, url := "",
                                 page := Except.error "x" } }
      "42" "t" "b" "" =
      Except.ok (errDict "Failed to access Pro interface page: 404",
        { domain := "d", email := "e", password := "p",
          authenticated := true, cookies := [] }, true) :=
  (create_draft_fallback_trigger
    { domain := "d", email := "e", password := "p",
      authenticated := true, cookies := [] }
    { signin_get := { status_code := 200, page := Except.error "x" },
      signin_post := fun _ => { status_code := 200, text := "", url := "" } }
    { new_status := 404, new_page := Except.error "x",
      draft_post := fun _ => { status_code := 500, page := Except.error "x" } }
    { new_with_body := { status_code := 404, page := Except.error "x" },
      new_plain := { status_code := 404, page := Except.error "x" },
      draft_post := fun _ => { status_code := 500, url := "",
                               page := Except.error "x" } }
    "42" "t" "b" ""
    (errDict "Failed to access Pro interface page: 404")
    rfl rfl rfl).trans rfl

/-- C4: when the Pro draft-creation POST returns HTTP 200, the response links
matching the Pro info-requests pattern are scanned and the first numeric
trailing segment becomes the draft id, with `success=true` and the draft URL
built from it; `create_draft_request` returns this Pro success directly. -/
theorem create_draft_pro_numeric_link (c : AskTheEUClient) (lenv : LoginEnv)
    (penv : ProEnv) (senv : StdEnv) (pbid title body embargo : String)
    (pg : ProNewPage) (tok : String) (toks : List String) (dp : ProDraftPage)
    (did : String)
    (hauth : c.authenticated = true)
    (hstatus : penv.new_status = 200)
    (hpage : penv.new_page = Except.ok pg)
    (haccess : pro_no_access pg = false)
    (htok : pro_token pg = tok :: toks)
    (hpost : (penv.draft_post (pro_form_data tok pbid title body embargo)).status_code = 200)
    (hppage : (penv.draft_post (pro_form_data tok pbid title body embargo)).page =
      Except.ok dp)
    (hlink : firstNumericTail dp.draft_links = some did) :
    c.create_draft_request lenv penv senv pbid title body embargo =
      Except.ok
        ([("success", PyVal.bool true),
          ("method", PyVal.str "pro_interface"),
          ("draft_id", PyVal.str did),
          ("draft_url",
           PyVal.str (c.domain ++ "/en/alaveteli_pro/info_requests/" ++ did))],
         c, false) := by
  have hpro : c.try_pro_interface penv pbid title body embargo =
      [("success", PyVal.bool true),
       ("method", PyVal.str "pro_interface"),
       ("draft_id", PyVal.str did),
       ("draft_url",
        PyVal.str (c.domain ++ "/en/alaveteli_pro/info_requests/" ++ did))] := by
    unfold AskTheEUClient.try_pro_interface
    simp only [hstatus, hpage, haccess, htok, hpost, hppage, hlink]
    simp
  simp only [AskTheEUClient.create_draft_request, AskTheEUClient.ensure_auth, hauth,
    if_true, hpro]
  norm_num [getBoolD, dget]

/-- C4 witness: a 200 POST whose response contains a non-numeric link and then
`/en/alaveteli_pro/info_requests/77`; the draft id is `77`. -/
theorem create_draft_pro_numeric_link_witness :
    ({ domain := "d", email := "e", password := "p",
       authenticated := true, cookies := [] } : AskTheEUClient).create_draft_request
      { signin_get := { status_code := 200, page := Except.error "x" },
        signin_post := fun _ => { status_code := 200, text := "", url := "" } }
      { new_status := 200,
        new_page := Except.ok { title_text := ["Make a request"],
                                authenticity_token := ["tkn"],
                                csrf_meta := [], token_inputs := [] },
        draft_post := fun _ =>
          { status_code := 200,
            page := Except.ok { draft_links :=
              ["/en/alaveteli_pro/info_requests/new",
               "/en/alaveteli_pro/info_requests/77"] } } }
      { new_with_body := { status_code := 404, page := Except.error "x" },
        new_plain := { status_code := 404, page := Except.error "x" },
        draft_post := fun _ => { status_code := 500, url := "",
                                 page := Except.error "x" } }
      "42" "t" "b" "" =
      Except.ok
        ([("success", PyVal.bool true),
          ("method", PyVal.str "pro_interface"),
          ("draft_id", PyVal.str "77"),
          ("draft_url", PyVal.str "d/en/alaveteli_pro/info_requests/77")],
         { domain := "d", email := "e", password := "p",
           authenticated := true, cookies := [] }, false) :=
  (create_draft_pro_numeric_link
    { domain := "d", email := "e", password := "p",
      authenticated := true, cookies := [] }
    { signin_get := { status_code := 200, page := Except.error "x" },
      signin_post := fun _ => { status_code := 200, text := "", url := "" } }
    { new_status := 200,
      new_page := Except.ok { title_text := ["Make a request"],
                              authenticity_token := ["tkn"],
                              csrf_meta := [], token_inputs := [] },
      draft_post := fun _ =>
        { status_code := 200,
          page := Except.ok { draft_links :=
            ["/en/alaveteli_pro/info_requests/new",
             "/en/alaveteli_pro/info_requests/77"] } } }
    { new_with_body := { status_code := 404, page := Except.error "x" },
      new_plain := { status_code := 404, page := Except.error "x" },
      draft_post := fun _ => { status_code := 500, url := "",
                               page := Except.error "x" } }
    "42" "t" "b" ""
    { title_text := ["Make a request"], authenticity_token := ["tkn"],
      csrf_meta := [], token_inputs := [] }
    "tkn" [] { draft_links := ["/en/alaveteli_pro/info_requests/new",
                               "/en/alaveteli_pro/info_requests/77"] }
    "77" rfl rfl rfl rfl rfl rfl rfl rfl).trans rfl

/-- C6 (amended): on a successful listing fetch, the next-page number is
`page + 1` exactly when a `rel="next"` link is present (null otherwise), the
previous-page number is `page - 1` exactly when a `rel="prev"` link is present
and `page > 1` (null otherwise), and two item blocks that each yield a parsed
record give exactly two records. -/
theorem list_requests_pagination (c : AskTheEUClient) (lenv : LoginEnv)
    (env : ListEnv) (page : Int) (lp : ListPage)
    (hauth : c.authenticated = true)
    (hst : env.pro_resp.status_code = 200)
    (hpg : env.pro_resp.page = Except.ok lp) :
    c.list_requests lenv env page =
      Except.ok
        ([("success", PyVal.bool true),
          ("requests",
           PyVal.list ((lp.items.filterMap (parse_item c.domain)).map PyVal.dict)),
          ("pagination", PyVal.dict
            [("current_page", PyVal.int page),
             ("next_page",
              if !lp.next_links.isEmpty then PyVal.int (page + 1) else PyVal.none),
             ("prev_page",
              if !lp.prev_links.isEmpty && decide (page > 1) then PyVal.int (page - 1)
              else PyVal.none)])],
         c) ∧
    (∀ i1 i2, lp.items = [i1, i2] →
       parse_item c.domain i1 ≠ Option.none →
       parse_item c.domain i2 ≠ Option.none →
       (lp.items.filterMap (parse_item c.domain)).length = 2) := by
  constructor
  · simp only [AskTheEUClient.list_requests, AskTheEUClient.ensure_auth, hauth, if_true,
      hst, hpg]
    simp [hst, hpg]
  · intro i1 i2 hitems h1 h2
    rcases hr1 : parse_item c.domain i1 with _ | r1
    · exact absurd hr1 h1
    rcases hr2 : parse_item c.domain i2 with _ | r2
    · exact absurd hr2 h2
    rw [hitems]
    simp [List.filterMap, hr1, hr2]

/-- C6 witness: page 2 with both navigation links and two parseable item
blocks: two records, `next_page = 3`, `prev_page = 1`. -/
theorem list_requests_pagination_witness :
    ({ domain := "d", email := "e", password := "p",
       authenticated := true, cookies := [] } : AskTheEUClient).list_requests
      { signin_get := { status_code := 200, page := Except.error "x" },
        signin_post := fun _ => { status_code := 200, text := "", url := "" } }
      { pro_resp :=
          { status_code := 200,
            page := Except.ok
              { items :=
                  [{ a_title_pro := [{ text := some "A", href := some "/request/a" }],
                     a_title_std := [], a_title_std2 := [], a_h3 := [], a_h4 := [],
                     a_any := [], status_span := [], status_div := [], status_p := [],
                     time_el := [], date_span := [], date_div := [] },
                   { a_title_pro := [{ text := some "B", href := some "/request/b" }],
                     a_title_std := [], a_title_std2 := [], a_h3 := [], a_h4 := [],
                     a_any := [], status_span := [], status_div := [], status_p := [],
                     time_el := [], date_span := [], date_div := [] }],
                next_links := ["?page=3"], prev_links := ["?page=1"] } },
        profile_resp := { status_code := 404, page := Except.error "x" },
        user_resp := { status_code := 404, page := Except.error "x" } }
      2 =
      Except.ok
        ([("success", PyVal.bool true),
          ("requests", PyVal.list
            [PyVal.dict
              [("id", PyVal.str "a"), ("title", PyVal.str "A"),
               ("url", PyVal.str "d/request/a"), ("status", PyVal.str "Unknown"),
               ("date", PyVal.none)],
             PyVal.dict
              [("id", PyVal.str "b"), ("title", PyVal.str "B"),
               ("url", PyVal.str "d/request/b"), ("status", PyVal.str "Unknown"),
               ("date", PyVal.none)]]),
          ("pagination", PyVal.dict
            [("current_page", PyVal.int 2),
             ("next_page", PyVal.int 3),
             ("prev_page", PyVal.int 1)])],
         { domain := "d", email := "e", password := "p",
           authenticated := true, cookies := [] }) :=
  ((list_requests_pagination
    { domain := "d", email := "e", password := "p",
      authenticated := true, cookies := [] }
    { signin_get := { status_code := 200, page := Except.error "x" },
      signin_post := fun _ => { status_code := 200, text := "", url := "" } }
    { pro_resp :=
        { status_code := 200,
          page := Except.ok
            { items :=
                [{ a_title_pro := [{ text := some "A", href := some "/request/a" }],
                   a_title_std := [], a_title_std2 := [], a_h3 := [], a_h4 := [],
                   a_any := [], status_span := [], status_div := [], status_p := [],
                   time_el := [], date_span := [], date_div := [] },
                 { a_title_pro := [{ text := some "B", href := some "/request/b" }],
                   a_title_std := [], a_title_std2 := [], a_h3 := [], a_h4 := [],
                   a_any := [], status_span := [], status_div := [], status_p := [],
                   time_el := [], date_span := [], date_div := [] }],
              next_links := ["?page=3"], prev_links := ["?page=1"] } },
      profile_resp := { status_code := 404, page := Except.error "x" },
      user_resp := { status_code := 404, page := Except.error "x" } }
    2
    { items :=
        [{ a_title_pro := [{ text := some "A", href := some "/request/a" }],
           a_title_std := [], a_title_std2 := [], a_h3 := [], a_h4 := [],
           a_any := [], status_span := [], status_div := [], status_p := [],
           time_el := [], date_span := [], date_div := [] },
         { a_title_pro := [{ text := some "B", href := some "/request/b" }],
           a_title_std := [], a_title_std2 := [], a_h3 := [], a_h4 := [],
           a_any := [], status_span := [], status_div := [], status_p := [],
           time_el := [], date_span := [], date_div := [] }],
      next_links := ["?page=3"], prev_links := ["?page=1"] }
    rfl rfl rfl).1).trans rfl

/-- C6 counterexample: at `page = 1` with a `rel="prev"` link present and two
item blocks (one without any anchor), `list_requests` returns `prev_page =
None` — not `page - 1` — and only one parsed record, refuting the claim that
prev-page availability depends solely on link presence and that two item
blocks always yield two records. -/
theorem list_requests_pagination_counterexample :
    ({ domain := "d", email := "e", password := "p",
       authenticated := true, cookies := [] } : AskTheEUClient).list_requests
      { signin_get := { status_code := 200, page := Except.error "x" },
        signin_post := fun _ => { status_code := 200, text := "", url := "" } }
      { pro_resp :=
          { status_code := 200,
            page := Except.ok
              { items :=
                  [{ a_title_pro := [{ text := some "A", href := some "/request/a" }],
                     a_title_std := [], a_title_std2 := [], a_h3 := [], a_h4 := [],
                     a_any := [], status_span := [], status_div := [], status_p := [],
                     time_el := [], date_span := [], date_div := [] },
                   { a_title_pro := [], a_title_std := [], a_title_std2 := [],
                     a_h3 := [], a_h4 := [], a_any := [], status_span := [],
                     status_div := [], status_p := [], time_el := [],
                     date_span := [], date_div := [] }],
                next_links := [], prev_links := ["?page=0"] } },
        profile_resp := { status_code := 404, page := Except.error "x" },
        user_resp := { status_code := 404, page := Except.error "x" } }
      1 =
      Except.ok
        ([("success", PyVal.bool true),
          ("requests", PyVal.list
            [PyVal.dict
              [("id", PyVal.str "a"), ("title", PyVal.str "A"),
               ("url", PyVal.str "d/request/a"), ("status", PyVal.str "Unknown"),
               ("date", PyVal.none)]]),
          ("pagination", PyVal.dict
            [("current_page", PyVal.int 1),
             ("next_page", PyVal.none),
             ("prev_page", PyVal.none)])],
         { domain := "d", email := "e", password := "p",
           authenticated := true, cookies := [] }) := by
  rfl

/-- C2 counterexample: an unparseable sign-in page (lxml raises "Document is
empty") makes `login` propagate the exception instead of degrading to a
failure result. -/
theorem parse_exception_escapes_counterexample :
    ({ domain := "d", email := "e", password := "p",
       authenticated := false, cookies := [] } : AskTheEUClient).login
      { signin_get := { status_code := 200, page := Except.error "Document is empty" },
        signin_post := fun _ => { status_code := 200, text := "", url := "" } } =
      Except.error "Document is empty" := by
  rfl

/-- C2 (amended): parse exceptions inside `create_draft_request`'s two
interface helpers are converted to failure dicts (both the form-page parse and
the draft-response parse), but the sign-in page parse in `login`, the
draft/preview page parses in `send_request`, and the top-level listing parse
in `list_requests` propagate the exception out of the call. -/
theorem parse_exception_handling (c c2 : AskTheEUClient) (e : String)
    (lenv : LoginEnv) (penv penv2 : ProEnv) (senv : StdEnv)
    (spenv : SendProEnv) (ssenv : SendStdEnv) (lienv : ListEnv)
    (pbid title body embargo did : String) (page : Int)
    (pg : ProNewPage) (tok : String) (toks : List String)
    (hauth : c.authenticated = false)
    (hauth2 : c2.authenticated = true)
    (hp1 : penv.new_status = 200) (hp2 : penv.new_page = Except.error e)
    (hq1 : penv2.new_status = 200) (hq2 : penv2.new_page = Except.ok pg)
    (hq3 : pro_no_access pg = false) (hq4 : pro_token pg = tok :: toks)
    (hq5 : (penv2.draft_post (pro_form_data tok pbid title body embargo)).status_code = 200)
    (hq6 : (penv2.draft_post (pro_form_data tok pbid title body embargo)).page =
      Except.error e)
    (hs1 : senv.new_with_body.status_code = 200)
    (hs2 : senv.new_with_body.page = Except.error e)
    (hl : lenv.signin_get.page = Except.error e)
    (hsp1 : spenv.draft_get.status_code = 200)
    (hsp2 : spenv.draft_get.tokens = Except.error e)
    (hss1 : ssenv.preview_get.status_code = 200)
    (hss2 : ssenv.preview_get.tokens = Except.error e)
    (hli1 : lienv.pro_resp.status_code = 200)
    (hli2 : lienv.pro_resp.page = Except.error e) :
    c.try_pro_interface penv pbid title body embargo =
      errDict ("Pro interface error: " ++ e) ∧
    c.try_pro_interface penv2 pbid title body embargo =
      errDict ("Error parsing Pro response: " ++ e) ∧
    c.try_standard_interface senv pbid title body =
      errDict ("Standard interface error: " ++ e) ∧
    c.login lenv = Except.error e ∧
    c2.send_request lenv spenv ssenv did true = Except.error e ∧
    c2.send_request lenv spenv ssenv did false = Except.error e ∧
    c2.list_requests lenv lienv page = Except.error e := by
  refine ⟨?_, ?_, ?_, ?_, ?_, ?_, ?_⟩
  · unfold AskTheEUClient.try_pro_interface
    simp [hp1, hp2]
  · unfold AskTheEUClient.try_pro_interface
    simp [hq1, hq2, hq3, hq4, hq5, hq6]
  · unfold AskTheEUClient.try_standard_interface
    simp [hs1, hs2]
  · unfold AskTheEUClient.login
    simp [hauth, hl]
  · unfold AskTheEUClient.send_request AskTheEUClient.ensure_auth
      AskTheEUClient.send_pro_request
    simp [hauth2, hsp1, hsp2]
  · unfold AskTheEUClient.send_request AskTheEUClient.ensure_auth
      AskTheEUClient.send_standard_request
    simp [hauth2, hss1, hss2]
  · unfold AskTheEUClient.list_requests AskTheEUClient.ensure_auth
    simp [hauth2, hli1, hli2]

/-- C2 witness: concrete environments exercising every conjunct. -/
theorem parse_exception_handling_witness :
    ({ domain := "d", email := "e", password := "p",
       authenticated := false, cookies := [] } : AskTheEUClient).try_pro_interface
      { new_status := 200, new_page := Except.error "Document is empty",
        draft_post := fun _ => { status_code := 500, page := Except.error "x" } }
      "42" "t" "b" "" =
      errDict ("Pro interface error: " ++ "Document is empty") ∧
    ({ domain := "d", email := "e", password := "p",
       authenticated := false, cookies := [] } : AskTheEUClient).try_pro_interface
      { new_status := 200,
        new_page := Except.ok { title_text := [], authenticity_token := ["tk"],
                                csrf_meta := [], token_inputs := [] },
        draft_post := fun _ => { status_code := 200,
                                 page := Except.error "Document is empty" } }
      "42" "t" "b" "" =
      errDict ("Error parsing Pro response: " ++ "Document is empty") ∧
    ({ domain := "d", email := "e", password := "p",
       authenticated := false, cookies := [] } : AskTheEUClient).try_standard_interface
      { new_with_body := { status_code := 200, page := Except.error "Document is empty" },
        new_plain := { status_code := 404, page := Except.error "x" },
        draft_post := fun _ => { status_code := 500, url := "",
                                 page := Except.error "x" } }
      "42" "t" "b" =
      errDict ("Standard interface error: " ++ "Document is empty") ∧
    ({ domain := "d", email := "e", password := "p",
       authenticated := false, cookies := [] } : AskTheEUClient).login
      { signin_get := { status_code := 200, page := Except.error "Document is empty" },
        signin_post := fun _ => { status_code := 200, text := "", url := "" } } =
      Except.error "Document is empty" ∧
    ({ domain := "d", email := "e", password := "p",
       authenticated := true, cookies := [] } : AskTheEUClient).send_request
      { signin_get := { status_code := 200, page := Except.error "Document is empty" },
        signin_post := fun _ => { status_code := 200, text := "", url := "" } }
      { draft_get := { status_code := 200, tokens := Except.error "Document is empty" },
        send_post := fun _ => { status_code := 200, location := Option.none } }
      { preview_get := { status_code := 200, tokens := Except.error "Document is empty" },
        send_post := fun _ => { status_code := 200, url := "",
                                request_links := Except.error "x" } }
      "5" true = Except.error "Document is empty" ∧
    ({ domain := "d", email := "e", password := "p",
       authenticated := true, cookies := [] } : AskTheEUClient).send_request
      { signin_get := { status_code := 200, page := Except.error "Document is empty" },
        signin_post := fun _ => { status_code := 200, text := "", url := "" } }
      { draft_get := { status_code := 200, tokens := Except.error "Document is empty" },
        send_post := fun _ => { status_code := 200, location := Option.none } }
      { preview_get := { status_code := 200, tokens := Except.error "Document is empty" },
        send_post := fun _ => { status_code := 200, url := "",
                                request_links := Except.error "x" } }
      "5" false = Except.error "Document is empty" ∧
    ({ domain := "d", email := "e", password := "p",
       authenticated := true, cookies := [] } : AskTheEUClient).list_requests
      { signin_get := { status_code := 200, page := Except.error "Document is empty" },
        signin_post := fun _ => { status_code := 200, text := "", url := "" } }
      { pro_resp := { status_code := 200, page := Except.error "Document is empty" },
        profile_resp := { status_code := 404, page := Except.error "x" },
        user_resp := { status_code := 404, page := Except.error "x" } }
      1 = Except.error "Document is empty" :=
  parse_exception_handling
    { domain := "d", email := "e", password := "p",
      authenticated := false, cookies := [] }
    { domain := "d", email := "e", password := "p",
      authenticated := true, cookies := [] }
    "Document is empty"
    { signin_get := { status_code := 200, page := Except.error "Document is empty" },
      signin_post := fun _ => { status_code := 200, text := "", url := "" } }
    { new_status := 200, new_page := Except.error "Document is empty",
      draft_post := fun _ => { status_code := 500, page := Except.error "x" } }
    { new_status := 200,
      new_page := Except.ok { title_text := [], authenticity_token := ["tk"],
                              csrf_meta := [], token_inputs := [] },
      draft_post := fun _ => { status_code := 200,
                               page := Except.error "Document is empty" } }
    { new_with_body := { status_code := 200, page := Except.error "Document is empty" },
      new_plain := { status_code := 404, page := Except.error "x" },
      draft_post := fun _ => { status_code := 500, url := "",
                               page := Except.error "x" } }
    { draft_get := { status_code := 200, tokens := Except.error "Document is empty" },
      send_post := fun _ => { status_code := 200, location := Option.none } }
    { preview_get := { status_code := 200, tokens := Except.error "Document is empty" },
      send_post := fun _ => { status_code := 200, url := "",
                              request_links := Except.error "x" } }
    { pro_resp := { status_code := 200, page := Except.error "Document is empty" },
      profile_resp := { status_code := 404, page := Except.error "x" },
      user_resp := { status_code := 404, page := Except.error "x" } }
    "42" "t" "b" "" "5" 1
    { title_text := [], authenticity_token := ["tk"], csrf_meta := [], token_inputs := [] }
    "tk" []
    rfl rfl rfl rfl rfl rfl rfl rfl rfl rfl rfl rfl rfl rfl rfl rfl rfl rfl rfl

/-- Every `_try_pro_interface` result is a tagged record. -/
theorem taggedCreate_try_pro (c : AskTheEUClient) (penv : ProEnv)
    (pbid title body embargo : String) :
    taggedCreate (c.try_pro_interface penv pbid title body embargo) = true := by
  unfold AskTheEUClient.try_pro_interface
  repeat' split
  all_goals try dsimp only
  all_goals repeat' split
  all_goals rfl

/-- Every `_try_standard_interface` result is a tagged record. -/
theorem taggedCreate_try_standard (c : AskTheEUClient) (senv : StdEnv)
    (pbid title body : String) :
    taggedCreate (c.try_standard_interface senv pbid title body) = true := by
  unfold AskTheEUClient.try_standard_interface
  repeat' split
  all_goals try dsimp only
  all_goals repeat' split
  all_goals rfl

/-- Every dict produced by `_send_pro_request` is a tagged record. -/
theorem taggedSend_send_pro (c : AskTheEUClient) (env : SendProEnv) (did : String)
    (d : PyDict) (h : c.send_pro_request env did = Except.ok d) :
    taggedSend d = true := by
  unfold AskTheEUClient.send_pro_request at h
  repeat' split at h
  all_goals try dsimp only at h
  all_goals repeat' split at h
  all_goals first
    | (simp only [Except.ok.injEq] at h; subst h; rfl)
    | simp at h

/-- Every dict produced by `_send_standard_request` is a tagged record. -/
theorem taggedSend_send_standard (c : AskTheEUClient) (env : SendStdEnv) (did : String)
    (d : PyDict) (h : c.send_standard_request env did = Except.ok d) :
    taggedSend d = true := by
  unfold AskTheEUClient.send_standard_request at h
  repeat' split at h
  all_goals try dsimp only at h
  all_goals repeat' split at h
  all_goals first
    | (simp only [Except.ok.injEq] at h; subst h; rfl)
    | simp at h

/-- C7 (amended): every result of the three operations is a tagged record
with a boolean `success` field; on success `create_draft_request` carries
string draft id/url, `send_request` carries request id/url fields that may be
null, and `list_requests` carries the request list and pagination; on failure
the record carries a human-readable error string. -/
theorem results_tagged (c : AskTheEUClient) (lenv : LoginEnv) (penv : ProEnv)
    (senv : StdEnv) (spenv : SendProEnv) (ssenv : SendStdEnv) (lienv : ListEnv)
    (pbid title body embargo did : String) (is_pro : Bool) (page : Int) :
    (∀ d c1 b, c.create_draft_request lenv penv senv pbid title body embargo =
        Except.ok (d, c1, b) → taggedCreate d = true) ∧
    (∀ d c1, c.send_request lenv spenv ssenv did is_pro = Except.ok (d, c1) →
        taggedSend d = true) ∧
    (∀ d c1, c.list_requests lenv lienv page = Except.ok (d, c1) →
        taggedList d = true) := by
  refine ⟨?_, ?_, ?_⟩
  · intro d c1 b h
    unfold AskTheEUClient.create_draft_request at h
    repeat' split at h
    all_goals try dsimp only at h
    all_goals repeat' split at h
    all_goals first
      | (simp only [Except.ok.injEq, Prod.mk.injEq] at h
         rcases h with ⟨rfl, -⟩
         first
           | rfl
           | exact taggedCreate_try_pro _ _ _ _ _ _
           | exact taggedCreate_try_standard _ _ _ _ _)
      | simp at h
  · intro d c1 h
    unfold AskTheEUClient.send_request at h
    repeat' split at h
    all_goals first
      | (simp only [Except.ok.injEq, Prod.mk.injEq] at h
         rcases h with ⟨rfl, -⟩
         first
           | rfl
           | exact taggedSend_send_pro _ _ _ _ (by assumption)
           | exact taggedSend_send_standard _ _ _ _ (by assumption))
      | simp at h
  · intro d c1 h
    unfold AskTheEUClient.list_requests at h
    repeat' split at h
    all_goals try dsimp only at h
    all_goals repeat' split at h
    all_goals first
      | (simp only [Except.ok.injEq, Prod.mk.injEq] at h
         rcases h with ⟨rfl, -⟩
         rfl)
      | simp at h

/-- C7 witness: a concrete failing draft creation yields a tagged failure
record. -/
theorem results_tagged_witness :
    taggedCreate (errDict "Failed to access Pro interface page: 404") = true :=
  (results_tagged
    { domain := "d", email := "e", password := "p",
      authenticated := true, cookies := [] }
    { signin_get := { status_code := 200, page := Except.error "x" },
      signin_post := fun _ => { status_code := 200, text := "", url := "" } }
    { new_status := 404, new_page := Except.error "x",
      draft_post := fun _ => { status_code := 500, page := Except.error "x" } }
    { new_with_body := { status_code := 404, page := Except.error "x" },
      new_plain := { status_code := 404, page := Except.error "x" },
      draft_post := fun _ => { status_code := 500, url := "",
                               page := Except.error "x" } }
    { draft_get := { status_code := 200, tokens := Except.ok ["tk"] },
      send_post := fun _ => { status_code := 302, location := Option.none } }
    { preview_get := { status_code := 200, tokens := Except.ok ["tk"] },
      send_post := fun _ => { status_code := 302, url := "",
                              request_links := Except.error "x" } }
    { pro_resp := { status_code := 404, page := Except.error "x" },
      profile_resp := { status_code := 404, page := Except.error "x" },
      user_resp := { status_code := 404, page := Except.error "x" } }
    "42" "t" "b" "" "5" true 1).1
    (errDict "Failed to access Pro interface page: 404")
    { domain := "d", email := "e", password := "p",
      authenticated := true, cookies := [] }
    true rfl

/-- C7 counterexample: a Pro send whose 302 response has no `Location` header
succeeds with `request_id = None` and `request_url = None` — a success result
that does not carry the identifiers. -/
theorem send_success_null_identifiers_counterexample :
    ({ domain := "d", email := "e", password := "p",
       authenticated := true, cookies := [] } : AskTheEUClient).send_request
      { signin_get := { status_code := 200, page := Except.error "x" },
        signin_post := fun _ => { status_code := 200, text := "", url := "" } }
      { draft_get := { status_code := 200, tokens := Except.ok ["tk"] },
        send_post := fun _ => { status_code := 302, location := Option.none } }
      { preview_get := { status_code := 200, tokens := Except.ok ["tk"] },
        send_post := fun _ => { status_code := 302, url := "",
                                request_links := Except.error "x" } }
      "5" true =
      Except.ok
        ([("success", PyVal.bool true),
          ("request_id", PyVal.none),
          ("request_url", PyVal.none)],
         { domain := "d", email := "e", password := "p",
           authenticated := true, cookies := [] }) ∧
    dget [("success", PyVal.bool true),
          ("request_id", PyVal.none),
          ("request_url", PyVal.none)] "success" = some (PyVal.bool true) ∧
    dget [("success", PyVal.bool true),
          ("request_id", PyVal.none),
          ("request_url", PyVal.none)] "request_id" = some PyVal.none ∧
    dget [("success", PyVal.bool true),
          ("request_id", PyVal.none),
          ("request_url", PyVal.none)] "request_url" = some PyVal.none := by
  refine ⟨rfl, rfl, rfl, rfl⟩

/-- An `optStrVal` field is a string or `None`. -/
theorem isStrOrNone_optStrVal (x : Option String) :
    isStrOrNone (some (optStrVal x)) = true := by
  cases x <;> rfl

/-- A `urlVal` field is a string or `None`. -/
theorem isStrOrNone_urlVal (domain : String) (u : Option String) :
    isStrOrNone (some (urlVal domain u)) = true := by
  unfold urlVal
  repeat' split
  all_goals rfl

/-- Shape of the successful `list_requests` result dict. -/
theorem list_requests_success_form (c : AskTheEUClient) (lenv : LoginEnv)
    (env : ListEnv) (page : Int) (lp : ListPage)
    (hauth : c.authenticated = true)
    (hst : env.pro_resp.status_code = 200)
    (hpg : env.pro_resp.page = Except.ok lp) :
    c.list_requests lenv env page =
      Except.ok
        ([("success", PyVal.bool true),
          ("requests",
           PyVal.list ((lp.items.filterMap (parse_item c.domain)).map PyVal.dict)),
          ("pagination", PyVal.dict
            [("current_page", PyVal.int page),
             ("next_page",
              if !lp.next_links.isEmpty then PyVal.int (page + 1) else PyVal.none),
             ("prev_page",
              if !lp.prev_links.isEmpty && decide (page > 1) then PyVal.int (page - 1)
              else PyVal.none)])],
         c) := by
  simp only [AskTheEUClient.list_requests, AskTheEUClient.ensure_auth, hauth, if_true,
    hst, hpg]
  simp [hst, hpg]

/-- Field shape of every record produced by the per-item parser. -/
theorem parse_item_fields (domain : String) (item : ListItem) (rec : PyDict)
    (h : parse_item domain item = some rec) :
    (∃ t, dget rec "title" = some (PyVal.str t)) ∧
    (∃ s, dget rec "status" = some (PyVal.str s)) ∧
    isStrOrNone (dget rec "id") = true ∧
    isStrOrNone (dget rec "url") = true ∧
    isStrOrNone (dget rec "date") = true ∧
    (∀ el, (title_chain item).head? = some el →
       el.text = Option.none ∨ el.text = some "" →
       dget rec "title" = some (PyVal.str "Untitled Request")) ∧
    (status_chain item = [] → dget rec "status" = some (PyVal.str "Unknown")) := by
  unfold parse_item at h
  split at h
  · exact absurd h (by simp)
  next el heq =>
    dsimp only at h
    simp only [Option.some.injEq] at h
    subst h
    refine ⟨⟨_, rfl⟩, ⟨_, rfl⟩, isStrOrNone_optStrVal _, isStrOrNone_urlVal _ _,
      isStrOrNone_optStrVal _, ?_, ?_⟩
    · intro el2 hel2 htext
      rw [heq] at hel2
      injection hel2 with h3
      subst h3
      rcases htext with ht | ht <;> rw [ht] <;> rfl
    · intro hstat
      rw [hstat]
      rfl

/-- C10: every entry of the `requests` list of a successful `list_requests`
call is a record whose `title` and `status` are non-null strings — defaulting
to "Untitled Request" when the matched link has no (or empty) text and to
"Unknown" when no status element matches — while `id`, `url` and `date` are
each a string or null. -/
theorem list_records_title_status_defaults (c : AskTheEUClient) (lenv : LoginEnv)
    (env : ListEnv) (page : Int) (lp : ListPage) (d : PyDict) (c1 : AskTheEUClient)
    (l : List PyVal) (v : PyVal)
    (hauth : c.authenticated = true)
    (hst : env.pro_resp.status_code = 200)
    (hpg : env.pro_resp.page = Except.ok lp)
    (hres : c.list_requests lenv env page = Except.ok (d, c1))
    (hreq : dget d "requests" = some (PyVal.list l))
    (hv : v ∈ l) :
    ∃ item rec, item ∈ lp.items ∧ parse_item c.domain item = some rec ∧
      v = PyVal.dict rec ∧
      (∃ t, dget rec "title" = some (PyVal.str t)) ∧
      (∃ s, dget rec "status" = some (PyVal.str s)) ∧
      isStrOrNone (dget rec "id") = true ∧
      isStrOrNone (dget rec "url") = true ∧
      isStrOrNone (dget rec "date") = true ∧
      (∀ el, (title_chain item).head? = some el →
         el.text = Option.none ∨ el.text = some "" →
         dget rec "title" = some (PyVal.str "Untitled Request")) ∧
      (status_chain item = [] →
         dget rec "status" = some (PyVal.str "Unknown")) := by
  rw [list_requests_success_form c lenv env page lp hauth hst hpg] at hres
  simp only [Except.ok.injEq, Prod.mk.injEq] at hres
  obtain ⟨hd, -⟩ := hres
  subst hd
  have hreq2 : (some (PyVal.list ((lp.items.filterMap (parse_item c.domain)).map PyVal.dict))
      : Option PyVal) = some (PyVal.list l) := hreq
  simp only [Option.some.injEq, PyVal.list.injEq] at hreq2
  subst hreq2
  rw [List.mem_map] at hv
  obtain ⟨rec, hrecmem, rfl⟩ := hv
  rw [List.mem_filterMap] at hrecmem
  obtain ⟨item, hitem, hparse⟩ := hrecmem
  obtain ⟨h1, h2, h3, h4, h5, h6, h7⟩ := parse_item_fields c.domain item rec hparse
  exact ⟨item, rec, hitem, hparse, rfl, h1, h2, h3, h4, h5, h6, h7⟩

/-- C10 witness: one item block whose only link has empty text and no status
element: title defaults to "Untitled Request", status to "Unknown". -/
theorem list_records_title_status_defaults_witness :
    ∃ item rec,
      item ∈ ({ items :=
                  [{ a_title_pro := [], a_title_std := [], a_title_std2 := [],
                     a_h3 := [], a_h4 := [],
                     a_any := [{ text := Option.none, href := some "x.html" }],
                     status_span := [], status_div := [], status_p := [],
                     time_el := [], date_span := [], date_div := [] }],
                next_links := [], prev_links := [] } : ListPage).items ∧
      parse_item "d" item = some rec ∧
      PyVal.dict [("id", PyVal.none), ("title", PyVal.str "Untitled Request"),
                  ("url", PyVal.str "d/x.html"), ("status", PyVal.str "Unknown"),
                  ("date", PyVal.none)] = PyVal.dict rec ∧
      (∃ t, dget rec "title" = some (PyVal.str t)) ∧
      (∃ s, dget rec "status" = some (PyVal.str s)) ∧
      isStrOrNone (dget rec "id") = true ∧
      isStrOrNone (dget rec "url") = true ∧
      isStrOrNone (dget rec "date") = true ∧
      (∀ el, (title_chain item).head? = some el →
         el.text = Option.none ∨ el.text = some "" →
         dget rec "title" = some (PyVal.str "Untitled Request")) ∧
      (status_chain item = [] →
         dget rec "status" = some (PyVal.str "Unknown")) :=
  list_records_title_status_defaults
    { domain := "d", email := "e", password := "p",
      authenticated := true, cookies := [] }
    { signin_get := { status_code := 200, page := Except.error "x" },
      signin_post := fun _ => { status_code := 200, text := "", url := "" } }
    { pro_resp :=
        { status_code := 200,
          page := Except.ok
            { items :=
                [{ a_title_pro := [], a_title_std := [], a_title_std2 := [], a_h3 := [],
                   a_h4 := [],
                   a_any := [{ text := Option.none, href := some "x.html" }],
                   status_span := [], status_div := [], status_p := [],
                   time_el := [], date_span := [], date_div := [] }],
              next_links := [], prev_links := [] } },
      profile_resp := { status_code := 404, page := Except.error "x" },
      user_resp := { status_code := 404, page := Except.error "x" } }
    1
    { items :=
        [{ a_title_pro := [], a_title_std := [], a_title_std2 := [], a_h3 := [],
           a_h4 := [],
           a_any := [{ text := Option.none, href := some "x.html" }],
           status_span := [], status_div := [], status_p := [],
           time_el := [], date_span := [], date_div := [] }],
      next_links := [], prev_links := [] }
    [("success", PyVal.bool true),
     ("requests", PyVal.list
       [PyVal.dict [("id", PyVal.none), ("title", PyVal.str "Untitled Request"),
                    ("url", PyVal.str "d/x.html"), ("status", PyVal.str "Unknown"),
                    ("date", PyVal.none)]]),
     ("pagination", PyVal.dict
       [("current_page", PyVal.int 1), ("next_page", PyVal.none),
        ("prev_page", PyVal.none)])]
    { domain := "d", email := "e", password := "p",
      authenticated := true, cookies := [] }
    [PyVal.dict [("id", PyVal.none), ("title", PyVal.str "Untitled Request"),
                 ("url", PyVal.str "d/x.html"), ("status", PyVal.str "Unknown"),
                 ("date", PyVal.none)]]
    (PyVal.dict [("id", PyVal.none), ("title", PyVal.str "Untitled Request"),
                 ("url", PyVal.str "d/x.html"), ("status", PyVal.str "Unknown"),
                 ("date", PyVal.none)])
    rfl rfl rfl rfl rfl (List.mem_singleton.mpr rfl)
